import Mathlib

set_option maxHeartbeats 1000000

/-!
Shallow embedding of the sync engine excerpt (src/src/sync.cpp, src/src/file.cpp,
src/include/mega/sync.h) of the MEGA SDK, together with proofs about the
reconciliation row state machine, the move/rename detector, the scan service,
the local-debris mover, the transfer retry policy and the File
serialization round trip.

Machine integers are modelled as Nat/Int; handles as Nat with `none` for the
UNDEF sentinel; byte strings as `List Nat`.  Stateful C++ code is modelled by
explicit state passing plus effect traces.  Calls into external collaborators
(filesystem access, cloud node lookup) are modelled as oracle fields of an
environment record, so that every function stays executable.
-/

namespace Mega

/-- Node types (the `nodetype_t` values the sync code distinguishes). -/
inductive NodeType where
  | unknownType
  | fileNode
  | folderNode
deriving DecidableEq

/-- Modelled from the spec: a file fingerprint is the tuple
`(size, mtime, crc0..crc3)` plus a validity flag (glossary: "Fingerprint
(file)"); the FileFingerprint implementation file is not part of the
excerpt. -/
structure FileFingerprint where
  size : Int
  mtime : Int
  crc0 : Int
  crc1 : Int
  crc2 : Int
  crc3 : Int
  isvalid : Bool
deriving DecidableEq

/-- Modelled from the spec: fingerprint content equality compares
`(size, mtime, crc)` (glossary: "used for content-equality checks"); the
comparison operator's implementation file is not part of the excerpt. -/
def fpEq (a b : FileFingerprint) : Bool :=
  a.size == b.size && a.mtime == b.mtime &&
  a.crc0 == b.crc0 && a.crc1 == b.crc1 && a.crc2 == b.crc2 && a.crc3 == b.crc3

/-- The view of a cloud `Node` that `Sync::syncItem` consults: type, handle,
fingerprint, whether `n->localnode && n->localnode->parent` holds (used by
`checkCloudPathForMovesRenames`), and whether a download (`n->syncget`) is
already in progress. -/
structure CloudNode where
  type : NodeType
  nodehandle : Nat
  fingerprint : FileFingerprint
  localnodeAttached : Bool
  syncgetActive : Bool
deriving DecidableEq

/-- The four levels of the LocalNode sync-tree flags
(`SYNCTREE_RESOLVED < SYNCTREE_DESCENDANT_FLAGGED <
SYNCTREE_ACTION_HERE_ONLY < SYNCTREE_ACTION_HERE_AND_BELOW`), ordered as the
`>=` comparisons in `Sync::syncItem` require. -/
inductive TreeFlag where
  | resolved
  | descendantFlagged
  | actionHereOnly
  | actionHereAndBelow
deriving DecidableEq

/-- Numeric level of a tree flag, used for the `>=` comparisons. -/
def TreeFlag.level : TreeFlag → Nat
  | .resolved => 0
  | .descendantFlagged => 1
  | .actionHereOnly => 2
  | .actionHereAndBelow => 3

/-- The view of a `LocalNode` (a row's `syncNode`) that `Sync::syncItem` and
the move detector consult.  `fsid = none` models `UNDEF`;
`syncedCloudNodeHandle = none` models an undef `NodeHandle`. -/
structure LocalNode where
  type : NodeType
  fingerprint : FileFingerprint
  fsid : Option Nat
  syncedCloudNodeHandle : Option Nat
  useBlocked : TreeFlag
  scanBlocked : TreeFlag
  blockedTimerArmed : Bool
  slocalname : Option (List Nat)
  transferActive : Bool
deriving DecidableEq

/-- The view of an `FSNode` (scan result) that the reconciler consults.
`fsid = none` models `UNDEF` (note a scan produces `0` for volumes without
stable ids, which is an ordinary value here). -/
structure FSNode where
  type : NodeType
  fingerprint : FileFingerprint
  fsid : Option Nat
  size : Int
  mtime : Int
  isSymlink : Bool
  isBlocked : Bool
  shortname : Option (List Nat)
deriving DecidableEq

/-- `Sync::syncEqual(const Node&, const LocalNode&)` (sync.cpp 2994-3002):
types must agree; folders then compare equal; files compare by fingerprint
(size, mtime, crc).  The node handle is deliberately not compared. -/
def syncEqualCloud (n : CloudNode) (ln : LocalNode) : Bool :=
  if n.type ≠ ln.type then false
  else if n.type ≠ .fileNode then true
  else fpEq n.fingerprint ln.fingerprint

/-- `Sync::syncEqual(const FSNode&, const LocalNode&)` (sync.cpp 3004-3012):
same shape as the cloud overload; the fsid is deliberately not compared. -/
def syncEqualFs (fsn : FSNode) (ln : LocalNode) : Bool :=
  if fsn.type ≠ ln.type then false
  else if fsn.type ≠ .fileNode then true
  else fpEq fsn.fingerprint ln.fingerprint

/-- One entry of the engine-wide `MegaClient::localnodeByFsid` multimap, as
`findLocalNodeByFsid` inspects it: the key, the LocalNode's type / mtime /
size, whether the entry belongs to the sync passed as `filesystemSync`
(`it->second->sync != &filesystemSync` is the cross-sync test), the entry's
sync's filesystem fingerprint (`none` models a zero/failed fingerprint), and
an identity for stating which node was returned. -/
structure FsidEntry where
  fsid : Nat
  nodeType : NodeType
  mtime : Int
  size : Int
  sameSync : Bool
  syncFsFingerprint : Option Nat
  nodeId : Nat
deriving DecidableEq

/-- Iteration core of `MegaClient::findLocalNodeByFsid` (sync.cpp 2808-2853)
over the entries whose key equals the probe fsid.  Faithful to the source:
the `return it->second` sits INSIDE the `if (it->second->sync !=
&filesystemSync)` block, so an entry belonging to the same sync is never
returned; only cross-sync entries that pass the filesystem-fingerprint check
and, for files, the (size, mtime) check are.  (The Windows-only drive-letter
check is compiled out on non-Windows builds and is not modelled.) -/
def findLocalNodeByFsidGo (fsNode : FSNode) (thisFp : Option Nat) :
    List FsidEntry → Nat → Option FsidEntry
  | [], _ => none
  | e :: rest, key =>
    if e.fsid ≠ key then findLocalNodeByFsidGo fsNode thisFp rest key
    else if e.nodeType ≠ fsNode.type then findLocalNodeByFsidGo fsNode thisFp rest key
    else if ¬ e.sameSync then
      match e.syncFsFingerprint, thisFp with
      | some fp1, some fp2 =>
        if fp1 ≠ fp2 then findLocalNodeByFsidGo fsNode thisFp rest key
        else if fsNode.type = .fileNode ∧ (fsNode.mtime ≠ e.mtime ∨ fsNode.size ≠ e.size) then
          findLocalNodeByFsidGo fsNode thisFp rest key
        else some e
      | _, _ => findLocalNodeByFsidGo fsNode thisFp rest key
    else
      findLocalNodeByFsidGo fsNode thisFp rest key

/-- `MegaClient::findLocalNodeByFsid` (sync.cpp 2808-2853).  `entries` is the
`localnodeByFsid` multimap in iteration order; `thisFp` is
`filesystemSync.dirnotify->fsfingerprint()`. -/
def findLocalNodeByFsid (entries : List FsidEntry) (fsNode : FSNode)
    (thisFp : Option Nat) : Option FsidEntry :=
  match fsNode.fsid with
  | none => none
  | some key => findLocalNodeByFsidGo fsNode thisFp entries key

/-- `Sync::FILE_UPDATE_DELAY_DS` (sync.cpp 38). -/
def FILE_UPDATE_DELAY_DS : Int := 30

/-- `Sync::FILE_UPDATE_MAX_DELAY_SECS` (sync.cpp 39). -/
def FILE_UPDATE_MAX_DELAY_SECS : Int := 60

/-- `Syncs::FileChangingState` (sync.h 1453-1460), with its member
defaults (`updatedfilesize = ~0`, i.e. -1; timestamps 0). -/
structure FileChangingState where
  updatedfilesize : Int := -1
  updatedfilets : Int := 0
  updatedfileinitialts : Int := 0
deriving DecidableEq

/-- Result of `fsaccess->newfileaccess()->fopen(fullPath)` on the suspected
move source, as `checkIfFileIsChanging` consults it. -/
structure FileProbe where
  fopenOk : Bool
  size : Int
  mtime : Int
  retry : Bool
deriving DecidableEq

/-- Outcome of one `MegaClient::checkIfFileIsChanging` call: the value the
function returns, the `mFileChangingCheckState` entry for the path after the
call (`none` = erased), and whether the internal `waitforupdate` flag was set
at the moment the function returned (the "Possible file update detected." /
"temporarily blocked" situations). -/
structure FileChangingResult where
  ret : Bool
  newState : Option FileChangingState
  waitDetected : Bool
deriving DecidableEq

/-- `MegaClient::checkIfFileIsChanging` (sync.cpp 2856-2969).  `st0` is the
`mFileChangingCheckState` entry for the path before the call (`none` if
absent; `operator[]` default-constructs it).  Faithful to the source,
including the `return NULL` on the waiting path (line 2951), which in a
`bool` function returns `false`. -/
def checkIfFileIsChanging (st0 : Option FileChangingState) (currentsecs : Int)
    (probe : FileProbe) : FileChangingResult :=
  let stA := st0.getD {}
  let st := if stA.updatedfileinitialts = 0
            then { stA with updatedfileinitialts := currentsecs } else stA
  if currentsecs ≥ st.updatedfileinitialts then
    if currentsecs - st.updatedfileinitialts ≤ FILE_UPDATE_MAX_DELAY_SECS then
      if probe.fopenOk then
        -- "File detected in the origin of a move"
        let sizeStep : Bool × FileChangingState :=
          if currentsecs ≥ st.updatedfilets then
            if currentsecs - st.updatedfilets < FILE_UPDATE_DELAY_DS / 10 then
              (true, st)  -- "The file was checked too recently. Waiting..."
            else if st.updatedfilesize ≠ probe.size then
              -- "The file size has changed since the last check. Waiting..."
              (true, { st with updatedfilesize := probe.size, updatedfilets := currentsecs })
            else (false, st)  -- "The file size seems stable"
          else (false, st)    -- "File checked in the future"
        let wait :=
          if ¬ sizeStep.1 then
            if currentsecs ≥ probe.mtime then
              -- "File modified too recently. Waiting..." when within the delay
              decide (currentsecs - probe.mtime < FILE_UPDATE_DELAY_DS / 10)
            else false        -- "File modified in the future"
          else sizeStep.1
        if wait then
          -- "Possible file update detected."  `return NULL` - i.e. false.
          { ret := false, newState := some sizeStep.2, waitDetected := true }
        else
          { ret := false, newState := none, waitDetected := false }
      else
        if probe.retry then
          -- "The file in the origin is temporarily blocked. Waiting..."
          -- also reaches the `return NULL` line.
          { ret := false, newState := some st, waitDetected := true }
        else
          -- "There isn't anything in the origin path"
          { ret := false, newState := none, waitDetected := false }
    else
      -- timeout: sendevent(99438, "Timeout waiting for file update")
      { ret := false, newState := none, waitDetected := false }
  else
    -- "File check started in the future"
    { ret := false, newState := none, waitDetected := false }

end Mega

namespace Mega

/-- Observable actions performed by the reconciler functions.  Each
constructor names one side-effecting statement of the source; the effect
trace of an embedded function lists them in source order. -/
inductive Effect where
  | setSlocalname            -- syncItem 2389: setnameparent to refresh slocalname
  | parentSetFutureScan      -- parentRow.syncNode->setFutureScan(true, false)
  | resetBlockedFlags        -- syncItem 2421-2422: scanBlocked = RESOLVED, timer reset
  | makeSyncNodeFromFS       -- resolve_makeSyncNode_fromFS: new LocalNode, init, setfsid
  | makeSyncNodeFromCloud    -- resolve_makeSyncNode_fromCloud: new LocalNode, init
  | setScanBlocked           -- row.syncNode->setScanBlocked()
  | setnotseenRow            -- row.syncNode->setnotseen(0)
  | deleteSyncNode           -- delete row.syncNode (queues cloud-node removal commands)
  | execsyncdeletions        -- client->execsyncdeletions()
  | appSyncLocalMove         -- client->app->syncupdate_local_move(...)
  | reparentSource           -- sourceLocalNode->setnameparent(parentRow.syncNode, ...)
  | setnotseenSource         -- sourceLocalNode->setnotseen(0)
  | statecacheadd            -- statecacheadd(...): queue LocalNode for the state cache
  | updateputs               -- client->updateputs()
  | sourceSetFutureScan      -- sourceLocalNode->setFutureScan(true, true)
  | treestateSyncing         -- row.cloudNode->localnode->treestate(TREESTATE_SYNCING)
  | renameLocal              -- client->fsaccess->renamelocal(sourcePath, fullPath)
  | reparentCloudLocalnode   -- row.cloudNode->localnode->setnameparent(...)
  | treestateSynced          -- row.cloudNode->localnode->treestate(TREESTATE_SYNCED)
  | setUseBlockedRow         -- row.syncNode->setUseBlocked()
  | setSyncedPair (fsid : Option Nat) (h : Nat)
      -- syncItem 2480-2485: syncNode->fsid / syncedCloudNodeHandle / node pointers
  | startUpload              -- client->startxfer(PUT, ...) + syncupdate_put
  | putnodesFolder           -- putnodes_prepareOneFolder + client->putnodes(...)
  | startDownload            -- new SyncFileGet + client->startxfer(GET, ...)
  | mkdirLocal               -- client->fsaccess->mkdirlocal(fullPath)
  | setfsidUndef             -- row.syncNode->setfsid(UNDEF, ...)
  | debrisRenameAttempt (i : Int)  -- movetolocaldebris renamelocal try at index i
  | movetosyncdebris         -- client->movetosyncdebris(row.cloudNode, inshare)
deriving DecidableEq

/-- Effects that command an upload, download, move, rename, create or delete
on the filesystem, the cloud, or the transfer engine - the mutations claims
C1 and C2 assert are absent on their rows. -/
def Effect.isMutationCommand : Effect → Bool
  | .deleteSyncNode => true
  | .execsyncdeletions => true
  | .reparentSource => true
  | .renameLocal => true
  | .reparentCloudLocalnode => true
  | .startUpload => true
  | .putnodesFolder => true
  | .startDownload => true
  | .mkdirLocal => true
  | .debrisRenameAttempt _ => true
  | .movetosyncdebris => true
  | _ => false

/-- A dereference of a null pointer - the embedded functions return
`Except.error .nullDeref` where the source would crash. -/
inductive DerefError where
  | nullDeref
deriving DecidableEq

/-- Result of `renamelocal` as `movetolocaldebris` consults it: the return
value plus the `transient_error` and `target_exists` flags it leaves on the
filesystem-access object. -/
structure RenameRes where
  ok : Bool
  transient : Bool
  targetExists : Bool
deriving DecidableEq

/-- Result of the day-folder `mkdirlocal` call: return value plus the
`target_exists` flag. -/
structure MkdirRes where
  ok : Bool
  targetExists : Bool
deriving DecidableEq

/-- Filesystem oracle for `Sync::movetolocaldebris`, indexed by the loop
index `i` (which also determines the target name: the plain `YYYY-MM-DD` day
folder for `i < 0`, the `YYYY-MM-DD HH.MM.SS.ii` suffixed name for
`i >= 0`). -/
structure DebrisFs where
  rename : Int → RenameRes
  mkdirDay : Int → MkdirRes
  mkdirBaseOk : Bool

/-- Loop body and recursion of `Sync::movetolocaldebris` (sync.cpp
1890-1946), from index `i` with `fuel` iterations left.  Returns the
function's result and the list of indexes at which a rename into the debris
was attempted.  Per the source: the base debris folder is mkdir'd at
`i == -2` and `i > 95` (result ignored), the day folder at every `i > -3`
(`havedir = mkdirlocal(..) || target_exists`); a successful rename returns
true; `transient_error` aborts with false; a non-existing target with
`havedir` aborts with false; otherwise the next index is tried. -/
def movetolocaldebrisGo (fs : DebrisFs) : Int → Nat → Bool × List Int
  | _, 0 => (false, [])
  | i, fuel + 1 =>
    let havedir := if i > -3 then (fs.mkdirDay i).ok || (fs.mkdirDay i).targetExists
                   else false
    let r := fs.rename i
    if r.ok then (true, [i])
    else if r.transient then (false, [i])
    else if havedir ∧ ¬ r.targetExists then (false, [i])
    else
      let rec' := movetolocaldebrisGo fs (i + 1) fuel
      (rec'.1, i :: rec'.2)

/-- `Sync::movetolocaldebris` (sync.cpp 1890-1946): the loop runs `i` from
-3 to 99 (103 iterations).  The victim is only ever renamed into the debris
folder - there is no unlink anywhere in the function. -/
def movetolocaldebris (fs : DebrisFs) : Bool × List Int :=
  movetolocaldebrisGo fs (-3) 103

/-- Outcome of a move-check / resolve / syncItem call: the value returned to
the caller plus the trace of effects performed. -/
structure StepOutcome where
  ret : Bool
  effects : List Effect
deriving DecidableEq

/-- Outcome of `Sync::checkLocalPathForMovesRenames`: whether the function
returned true (row handled), the `rowResult` it set, the effect trace, and
the row mutations it performed (clearing `row.fsNode->fsid`, deleting
`row.syncNode`). -/
structure MoveCheckOutcome where
  handled : Bool
  rowResult : Bool
  effects : List Effect
  fsNodeFsidCleared : Bool
  deletedRowSyncNode : Bool
deriving DecidableEq

/-- Environment of a `syncItem` call: the engine-wide indexes and oracle
answers of the collaborators the involved functions consult. -/
structure Env where
  fsidEntries : List FsidEntry      -- MegaClient::localnodeByFsid
  thisSyncFsFp : Option Nat         -- this sync's dirnotify->fsfingerprint()
  fullscan : Bool                   -- Sync::fullscan
  fsStateCurrent : Bool             -- Sync::fsStateCurrent (scanning finished)
  statecurrent : Bool               -- MegaClient::statecurrent (cloud caught up)
  fcState : Option FileChangingState -- mFileChangingCheckState entry for the source path
  currentsecs : Int                 -- m_time()
  sourceProbe : FileProbe           -- fopen of the move-source path
  cloudRenameOk : Bool              -- renamelocal in checkCloudPathForMovesRenames
  cloudRenameTransient : Bool       -- fsaccess->transient_error after that rename
  syncedNodeStillExists : Bool      -- client->nodebyhandle(syncedCloudNodeHandle) != null
  debrisFs : DebrisFs               -- oracle for movetolocaldebris
  mkdirLocalOk : Bool               -- mkdirlocal(fullPath) in resolve_downsync

/-- `Sync::checkLocalPathForMovesRenames` (sync.cpp 1631-1735).  Only called
with `row.fsNode` present (the guard at sync.cpp 2440), so the FSNode is a
plain argument.  Faithful to the source, including the null dereference of
`row.syncNode` in the symlink branch (line 1695: the `todo` comment admits
"no syncnode here"). -/
def checkLocalPathForMovesRenames (env : Env) (syncNode : Option LocalNode)
    (fsNode : FSNode) : Except DerefError MoveCheckOutcome :=
  match syncNode with
  | some sn =>
    if sn.type = fsNode.type then
      -- mark as present: row.syncNode->setnotseen(0)
      if sn.type = .fileNode then
        match findLocalNodeByFsid env.fsidEntries fsNode env.thisSyncFsFp with
        | some src =>
          if src.mtime ≠ fsNode.mtime ∨ src.size ≠ fsNode.size then
            -- false fsid match (inode reuse): clear row.fsNode->fsid, run normal comparison
            .ok { handled := false, rowResult := false,
                  effects := [.setnotseenRow],
                  fsNodeFsidCleared := true, deletedRowSyncNode := false }
          else
            -- "File move/overwrite detected"
            .ok { handled := true, rowResult := false,
                  effects := [.setnotseenRow, .deleteSyncNode, .execsyncdeletions,
                              .appSyncLocalMove, .reparentSource, .setnotseenSource,
                              .statecacheadd],
                  fsNodeFsidCleared := false, deletedRowSyncNode := true }
        | none =>
          .ok { handled := false, rowResult := false, effects := [.setnotseenRow],
                fsNodeFsidCleared := false, deletedRowSyncNode := false }
      else
        .ok { handled := false, rowResult := false, effects := [.setnotseenRow],
              fsNodeFsidCleared := false, deletedRowSyncNode := false }
    else
      .ok { handled := false, rowResult := false, effects := [],
            fsNodeFsidCleared := false, deletedRowSyncNode := false }
  | none =>
    if fsNode.isSymlink then
      -- "checked path is a symlink, blocked": row.syncNode->setUseBlocked()
      -- with row.syncNode == nullptr - a null dereference.
      .error .nullDeref
    else
      match findLocalNodeByFsid env.fsidEntries fsNode env.thisSyncFsFp with
      | some src =>
        if src.nodeType = .fileNode ∧
           (checkIfFileIsChanging env.fcState env.currentsecs env.sourceProbe).ret then
          -- wait: "if we revisit here and the file is still the same ... we'll move it"
          .ok { handled := true, rowResult := false, effects := [],
                fsNodeFsidCleared := false, deletedRowSyncNode := false }
        else
          -- move detected by fsid: reparent, keep transfers going, persist
          .ok { handled := false, rowResult := false,
                effects := [.appSyncLocalMove, .reparentSource, .updateputs,
                            .statecacheadd, .setnotseenSource] ++
                  (if env.fullscan ∧ src.nodeType = .folderNode
                   then [.sourceSetFutureScan] else []),
                fsNodeFsidCleared := false, deletedRowSyncNode := false }
      | none =>
        .ok { handled := false, rowResult := false, effects := [],
              fsNodeFsidCleared := false, deletedRowSyncNode := false }

/-- `Sync::checkCloudPathForMovesRenames` (sync.cpp 1737-1776).  Always
returns false to its caller (it never sets `rowResult`); if the cloud node
has an attached LocalNode with a parent it renames the local file and
re-points the LocalNode tree; a transient rename error dereferences
`row.syncNode` (null-unsafe when the row has no sync node). -/
def checkCloudPathForMovesRenames (env : Env) (syncNode : Option LocalNode)
    (cloudNode : CloudNode) : Except DerefError (List Effect) :=
  if cloudNode.localnodeAttached then
    if env.cloudRenameOk then
      .ok [.treestateSyncing, .renameLocal, .appSyncLocalMove,
           .reparentCloudLocalnode, .statecacheadd, .updateputs, .treestateSynced]
    else if env.cloudRenameTransient then
      match syncNode with
      | some _ => .ok [.treestateSyncing, .renameLocal, .setUseBlockedRow]
      | none => .error .nullDeref
    else
      .ok [.treestateSyncing, .renameLocal]
  else
    .ok []

end Mega

namespace Mega

/-- `flag >= LocalNode::SYNCTREE_ACTION_HERE_ONLY`. -/
def TreeFlag.geHereOnly : TreeFlag → Bool
  | .actionHereOnly => true
  | .actionHereAndBelow => true
  | _ => false

/-- `flag >= LocalNode::SYNCTREE_DESCENDANT_FLAGGED`. -/
def TreeFlag.geDescendant : TreeFlag → Bool
  | .resolved => false
  | _ => true

/-- `Sync::resolve_userIntervention` (sync.cpp 2755-2759): the body is
`LOG_debug << "write me"; return false;` - it records no stall, performs no
action, and reports the row unresolved. -/
def resolve_userIntervention : Except DerefError StepOutcome :=
  .ok { ret := false, effects := [] }

/-- `Sync::resolve_pickWinner` (sync.cpp 2761-2765): also a
`LOG_debug << "write me"` stub. -/
def resolve_pickWinner : Except DerefError StepOutcome :=
  .ok { ret := false, effects := [] }

/-- `Sync::resolve_delSyncNode` (sync.cpp 2652-2662): deletes the LocalNode
(which queues its db-record removal) and returns false. -/
def resolve_delSyncNode : Except DerefError StepOutcome :=
  .ok { ret := false, effects := [.deleteSyncNode] }

/-- `Sync::resolve_makeSyncNode_fromFS` (sync.cpp 2597-2628): waits until
scanning has finished (`fsStateCurrent`), else creates a LocalNode from the
filesystem entry, schedules a scan of the parent and persists the new node.
Note the function never assigns `row.syncNode`.  Returns false either way. -/
def resolve_makeSyncNode_fromFS (env : Env) : Except DerefError StepOutcome :=
  if ¬ env.fsStateCurrent then .ok { ret := false, effects := [] }
  else .ok { ret := false,
             effects := [.makeSyncNodeFromFS, .parentSetFutureScan, .statecacheadd] }

/-- `Sync::resolve_makeSyncNode_fromCloud` (sync.cpp 2630-2650). -/
def resolve_makeSyncNode_fromCloud : Except DerefError StepOutcome :=
  .ok { ret := false,
        effects := [.makeSyncNodeFromCloud, .parentSetFutureScan, .statecacheadd] }

/-- `Sync::resolve_upsync` (sync.cpp 2664-2701).  For a file: start the
upload unless one is already running and the parent cloud folder exists.
For a folder: `client->putnodes(parentRow.cloudNode->nodehandle, ...)`
dereferences the parent cloud node without a null check. -/
def resolve_upsync (sn : LocalNode) (fn : FSNode) (parentCloud : Option CloudNode) :
    Except DerefError StepOutcome :=
  if fn.type = .fileNode then
    if ¬ sn.transferActive then
      match parentCloud with
      | some _ => .ok { ret := false, effects := [.startUpload] }
      | none => .ok { ret := false, effects := [] }
        -- "Parent cloud folder to upload to doesn't exist yet"
    else .ok { ret := false, effects := [] }  -- "Upload already in progress"
  else
    match parentCloud with
    | some _ => .ok { ret := false, effects := [.putnodesFolder] }
    | none => .error .nullDeref

/-- `Sync::resolve_downsync` (sync.cpp 2703-2752).  For a file: start the
download unless one is running.  For a folder: mkdir locally; on success the
parent is scheduled for rescan, on any error the row is marked use-blocked. -/
def resolve_downsync (env : Env) (cn : CloudNode) (_alreadyExists : Bool) :
    Except DerefError StepOutcome :=
  if cn.type = .fileNode then
    if ¬ cn.syncgetActive then .ok { ret := false, effects := [.startDownload] }
    else .ok { ret := false, effects := [] }  -- "Download already in progress"
  else
    if env.mkdirLocalOk then
      .ok { ret := false, effects := [.mkdirLocal, .parentSetFutureScan] }
    else
      .ok { ret := false, effects := [.mkdirLocal, .setUseBlockedRow] }

/-- `Sync::resolve_cloudNodeGone` (sync.cpp 2767-2806): defers while the
client is not caught up with the cloud (`!client->statecurrent`); defers if
the synced node still exists elsewhere (rename/move handled in the receiving
row); otherwise moves the local item to the local sync debris, clearing the
row's fsid on success.  Always returns false. -/
def resolve_cloudNodeGone (env : Env) : Except DerefError StepOutcome :=
  if ¬ env.statecurrent then .ok { ret := false, effects := [] }
  else if env.syncedNodeStillExists then .ok { ret := false, effects := [] }
  else
    let d := movetolocaldebris env.debrisFs
    .ok { ret := false,
          effects := d.2.map Effect.debrisRenameAttempt ++
                     (if d.1 then [.setfsidUndef] else []) }

/-- `Sync::resolve_fsNodeGone` (sync.cpp 2971-2992): defers while scanning
has not finished (`!fsStateCurrent`); otherwise clears the row's fsid and
moves the cloud node to the cloud sync debris.  Always returns false. -/
def resolve_fsNodeGone (env : Env) : Except DerefError StepOutcome :=
  if ¬ env.fsStateCurrent then .ok { ret := false, effects := [] }
  else .ok { ret := false, effects := [.setfsidUndef, .movetosyncdebris] }

/-- The eight presence cases of `Sync::syncItem` (sync.cpp 2462-2593),
entered after the blocked-row gates and the move/rename side channels. -/
def syncItemCases (env : Env) (c : Option CloudNode) (s : Option LocalNode)
    (f : Option FSNode) (parentCloud : Option CloudNode) :
    Except DerefError StepOutcome :=
  match s with
  | some sn =>
    match f with
    | some fn =>
      match c with
      | some cn =>
        -- all three exist; compare
        let cloudEqual := syncEqualCloud cn sn
        let fsEqual := syncEqualFs fn sn
        if cloudEqual ∧ fsEqual then
          -- success! this row is synced
          if sn.fsid ≠ fn.fsid ∨ sn.syncedCloudNodeHandle ≠ some cn.nodehandle then
            .ok { ret := true,
                  effects := [.setSyncedPair fn.fsid cn.nodehandle, .statecacheadd] }
          else
            .ok { ret := true, effects := [] }  -- "Row was already synced"
        else if cloudEqual then resolve_upsync sn fn parentCloud
        else if fsEqual then resolve_downsync env cn true
        else resolve_userIntervention
      | none =>
        if sn.syncedCloudNodeHandle = none then resolve_upsync sn fn parentCloud
        else resolve_cloudNodeGone env
    | none =>
      match c with
      | some cn =>
        if sn.fsid ≠ none then resolve_fsNodeGone env
        else resolve_downsync env cn false
      | none => resolve_delSyncNode
  | none =>
    match f with
    | some fn =>
      match c with
      | some cn =>
        if fn.type ≠ cn.type then resolve_userIntervention
        else if fn.type ≠ .fileNode ∨ fpEq fn.fingerprint cn.fingerprint then
          resolve_makeSyncNode_fromFS env
        else resolve_pickWinner
      | none => resolve_makeSyncNode_fromFS env
    | none =>
      match c with
      | some _ => resolve_makeSyncNode_fromCloud
      | none => .ok { ret := false, effects := [] }  -- assert(false) in the source

/-- Prefix an effect trace onto an outcome. -/
def mapPrefixed (acc : List Effect) :
    Except DerefError StepOutcome → Except DerefError StepOutcome
  | .error e => .error e
  | .ok o => .ok { o with effects := acc ++ o.effects }

/-- The guard at sync.cpp 2440: run the local move check when the row has an
FSNode and either no sync node or a defined fsid that differs. -/
def localMoveGuard (s : Option LocalNode) (fn : FSNode) : Bool :=
  match s with
  | none => true
  | some sn => sn.fsid.isSome && sn.fsid != fn.fsid

/-- The guard at sync.cpp 2450: run the cloud move check when the row has a
cloud node and either no sync node or a defined synced handle that differs. -/
def cloudMoveGuard (s : Option LocalNode) (cn : CloudNode) : Bool :=
  match s with
  | none => true
  | some sn => sn.syncedCloudNodeHandle.isSome &&
               sn.syncedCloudNodeHandle != some cn.nodehandle

/-- Stage of `Sync::syncItem` at 2450-2458: the cloud move/rename side
channel (which always falls through) followed by the eight cases. -/
def syncItemCloudStage (env : Env) (c : Option CloudNode) (s : Option LocalNode)
    (f : Option FSNode) (parentCloud : Option CloudNode) (acc : List Effect) :
    Except DerefError StepOutcome :=
  match c with
  | some cn =>
    if cloudMoveGuard s cn then
      match checkCloudPathForMovesRenames env s cn with
      | .error e => .error e
      | .ok eff => mapPrefixed (acc ++ eff) (syncItemCases env c s f parentCloud)
    else mapPrefixed acc (syncItemCases env c s f parentCloud)
  | none => mapPrefixed acc (syncItemCases env c s f parentCloud)

/-- Stage of `Sync::syncItem` at 2440-2448: the local move/rename side
channel; a handled row returns its `rowResult`, otherwise the (possibly
fsid-cleared) row falls through. -/
def syncItemMoveStage (env : Env) (c : Option CloudNode) (s : Option LocalNode)
    (f : Option FSNode) (parentCloud : Option CloudNode) (acc : List Effect) :
    Except DerefError StepOutcome :=
  match f with
  | some fn =>
    if localMoveGuard s fn then
      match checkLocalPathForMovesRenames env s fn with
      | .error e => .error e
      | .ok out =>
        if out.handled then .ok { ret := out.rowResult, effects := acc ++ out.effects }
        else
          let fn2 := if out.fsNodeFsidCleared then { fn with fsid := none } else fn
          syncItemCloudStage env c s (some fn2) parentCloud (acc ++ out.effects)
    else syncItemCloudStage env c s (some fn) parentCloud acc
  | none => syncItemCloudStage env c s none parentCloud acc

/-- The slocalname refresh at sync.cpp 2382-2391. -/
def slocalnameEffects (s : Option LocalNode) (f : Option FSNode) : List Effect :=
  match s, f with
  | some sn, some fn =>
    match fn.shortname with
    | some sh => if sn.slocalname ≠ some sh then [.setSlocalname] else []
    | none => []
  | _, _ => []

/-- The use-blocked gate at sync.cpp 2393-2400 (return false while the
backoff timer has not elapsed). -/
def useBlockedGate (s : Option LocalNode) : Bool :=
  match s with
  | some sn => sn.useBlocked.geHereOnly && !sn.blockedTimerArmed
  | none => false

/-- The scan-blocked gate at sync.cpp 2402-2414 (always returns false;
schedules a parent rescan when the timer elapsed). -/
def scanBlockedGateHit (s : Option LocalNode) : Bool :=
  match s with
  | some sn => sn.scanBlocked.geHereOnly
  | none => false

/-- Whether the scan-blocked gate finds the backoff timer elapsed. -/
def blockedTimerElapsed (s : Option LocalNode) : Bool :=
  match s with
  | some sn => sn.blockedTimerArmed
  | none => false

/-- The descendant-flag reset at sync.cpp 2416-2423. -/
def descendantFlagGate (s : Option LocalNode) : Bool :=
  match s with
  | some sn => sn.useBlocked.geDescendant || sn.scanBlocked.geDescendant
  | none => false

/-- The blocked-FSNode test at sync.cpp 2425: type unknown or blocked. -/
def fsNodeBlocked (f : Option FSNode) : Bool :=
  match f with
  | some fn => (fn.type == .unknownType) || fn.isBlocked
  | none => false

/-- `Sync::syncItem` (sync.cpp 2361-2594): the per-row decision function.
`c`, `s`, `f` are the row's cloud node, sync LocalNode and filesystem entry;
`parentCloud` is `parentRow.cloudNode`.  Returns the `rowSynced` flag and the
effect trace, or `Except.error` where the source dereferences null.  Note in
the blocked-FSNode branch with no sync node, `resolve_makeSyncNode_fromFS`
never assigns `row.syncNode`, so the `row.syncNode->setScanBlocked()` that
follows dereferences null. -/
def syncItem (env : Env) (c : Option CloudNode) (s : Option LocalNode)
    (f : Option FSNode) (parentCloud : Option CloudNode) :
    Except DerefError StepOutcome :=
  let e0 := slocalnameEffects s f
  if useBlockedGate s then .ok { ret := false, effects := e0 }
  else if scanBlockedGateHit s then
    .ok { ret := false,
          effects := e0 ++ (if blockedTimerElapsed s then [.parentSetFutureScan] else []) }
  else
    let e1 := e0 ++ (if descendantFlagGate s then [.resetBlockedFlags] else [])
    if fsNodeBlocked f then
      match s with
      | some _ => .ok { ret := false, effects := e1 ++ [.setScanBlocked] }
      | none => .error .nullDeref
    else
      syncItemMoveStage env c s f parentCloud e1

end Mega

namespace Mega

/-- Modelled from the spec: the default-constructed (invalid) file
fingerprint; the FileFingerprint implementation file is not in the excerpt. -/
def emptyFingerprint : FileFingerprint :=
  { size := -1, mtime := 0, crc0 := 0, crc1 := 0, crc2 := 0, crc3 := 0,
    isvalid := false }

/-- Everything `ScanService::Worker::interrogate` (sync.cpp 686-744) learns
about one directory entry: whether the entry path is inside the debris
(checked by the caller's loop), the `fopen` outcome, and the opened file's
attributes. -/
structure ScanEntryProbe where
  inDebris : Bool
  fopenOk : Bool
  isSymlink : Bool
  mtime : Int
  size : Int
  shortname : Option (List Nat)
  entryType : NodeType
  fsidvalid : Bool
  fsid : Nat
  fingerprint : FileFingerprint
  retry : Bool
deriving DecidableEq

/-- `ScanService::Worker::interrogate` (sync.cpp 686-744): on a successful
open, populate the FSNode (fsid 0 unless the filesystem id is valid,
fingerprint only for files); on failure, a default FSNode whose `isBlocked`
is the transient-error flag. -/
def interrogate (e : ScanEntryProbe) : FSNode :=
  if e.fopenOk then
    { type := e.entryType,
      fingerprint := if e.entryType = .fileNode then e.fingerprint else emptyFingerprint,
      fsid := if e.fsidvalid then some e.fsid else some 0,
      size := e.size,
      mtime := e.mtime,
      isSymlink := e.isSymlink,
      isBlocked := false,
      shortname := e.shortname }
  else
    { type := .unknownType, fingerprint := emptyFingerprint, fsid := none,
      size := -1, mtime := 0, isSymlink := false, isBlocked := e.retry,
      shortname := none }

/-- The filesystem answers consulted by one `ScanService::Worker::scan` call
(sync.cpp 746-810): debris containment of the target, the target `fopen`
outcome and type, the `dopen` outcome, and the directory entries. -/
structure ScanEnv where
  targetInDebris : Bool
  fopenOk : Bool
  targetType : NodeType
  dopenOk : Bool
  entries : List ScanEntryProbe

/-- `ScanService::Worker::scan` (sync.cpp 746-810): the results published
into `request->mResults`.  Every early-exit path (debris target, unopenable
target, non-directory target, failed directory iteration) simply returns,
leaving the result list empty; no flag of any kind is set. -/
def workerScan (env : ScanEnv) : List FSNode :=
  if env.targetInDebris then []
  else if ¬ env.fopenOk then []
  else if env.targetType ≠ .folderNode then []
  else if ¬ env.dopenOk then []
  else (env.entries.filter (fun e => !e.inDebris)).map interrogate

/-- The fields of `ScanService::ScanRequest` that describe a completed
request, exactly those its constructor initializes and the worker mutates
(sync.cpp 549-560, 661): the completion flag and the result list.  There is
no accessibility flag. -/
structure ScanRequestState where
  complete : Bool
  results : List FSNode
deriving DecidableEq

/-- One iteration of `ScanService::Worker::loop` (sync.cpp 627-684) on a
dequeued request: run `scan`, then unconditionally set `mComplete = true`. -/
def workerLoopProcess (env : ScanEnv) : ScanRequestState :=
  { complete := true, results := workerScan env }

/-- The `error` values `File::failed` distinguishes, plus a representative
generic transient failure (`EFAILED`). -/
inductive TransferError where
  | EKEY
  | EBLOCKED
  | ENOENT
  | EINTERNAL
  | EACCESS
  | ETOOMANY
  | EREAD
  | EWRITE
  | EOVERQUOTA
  | EGOINGOVERQUOTA
  | EFAILED
deriving DecidableEq

/-- `File::failed` (file.cpp 420-438): whether a transfer that failed with
`e` after `failcount` earlier failures may be retried.  `syncxfer` is the
File's sync-transfer flag. -/
def fileFailed (e : TransferError) (syncxfer : Bool) (failcount : Nat) : Bool :=
  if e = .EKEY then false  -- mac error; do not retry
  else
    -- Non fatal errors, up to 16 retries; I/O errors up to 6 retries
    ((e ≠ .EBLOCKED && e ≠ .ENOENT && e ≠ .EINTERNAL && e ≠ .EACCESS &&
        e ≠ .ETOOMANY && failcount < 16) &&
      !((e = .EREAD || e = .EWRITE) && failcount > 6))
    -- Retry sync transfers up to 8 times for errors without specific management
    || (syncxfer && e ≠ .EBLOCKED && e ≠ .EKEY && failcount ≤ 8)
    -- Infinite retries for storage overquota errors
    || e = .EOVERQUOTA || e = .EGOINGOVERQUOTA

end Mega

namespace Mega

/-- Two little-endian bytes of an `unsigned short`. -/
def w16 (n : Nat) : List Nat := [n % 256, n / 256 % 256]

/-- `MemAccess::get<unsigned short>` on a byte list. -/
def u16val : List Nat → Nat
  | a :: b :: _ => a + 256 * b
  | _ => 0

/-- Eight little-endian bytes of a 64-bit value. -/
def w64 (n : Nat) : List Nat :=
  [n % 256, n / 256 % 256, n / 256 ^ 2 % 256, n / 256 ^ 3 % 256,
   n / 256 ^ 4 % 256, n / 256 ^ 5 % 256, n / 256 ^ 6 % 256, n / 256 ^ 7 % 256]

/-- `MemAccess::get<handle>` (64-bit) on a byte list. -/
def u64val : List Nat → Nat
  | b0 :: b1 :: b2 :: b3 :: b4 :: b5 :: b6 :: b7 :: _ =>
      b0 + 256 * b1 + 256 ^ 2 * b2 + 256 ^ 3 * b3 +
      256 ^ 4 * b4 + 256 ^ 5 * b5 + 256 ^ 6 * b6 + 256 ^ 7 * b7
  | _ => 0

/-- Four little-endian bytes of a 32-bit value. -/
def w32 (n : Nat) : List Nat :=
  [n % 256, n / 256 % 256, n / 256 ^ 2 % 256, n / 256 ^ 3 % 256]

/-- A 32-bit read on a byte list. -/
def u32val : List Nat → Nat
  | a :: b :: c :: d :: _ => a + 256 * b + 256 ^ 2 * c + 256 ^ 3 * d
  | _ => 0

/-- Two's-complement encoding of a signed 64-bit value. -/
def encodeI64 (i : Int) : Nat := (i % 2 ^ 64).toNat

/-- Two's-complement decoding of a 64-bit value. -/
def decodeI64 (n : Nat) : Int := if n < 2 ^ 63 then (n : Int) else (n : Int) - 2 ^ 64

/-- Two's-complement encoding of a signed 32-bit value. -/
def encodeI32 (i : Int) : Nat := (i % 2 ^ 32).toNat

/-- Two's-complement decoding of a 32-bit value. -/
def decodeI32 (n : Nat) : Int := if n < 2 ^ 31 then (n : Int) else (n : Int) - 2 ^ 32

/-- A C++ `bool` serialized as one byte. -/
def boolByte (b : Bool) : Nat := if b then 1 else 0

/-- `MemAccess::get<bool>`: any nonzero byte reads as true. -/
def byteBool (n : Nat) : Bool := n ≠ 0

/-- Modelled from the spec: `FileFingerprint::serialize` writes the tuple
`(size, mtime, crc0..crc3)` and the validity flag as fixed-width
little-endian fields (glossary "Fingerprint (file)"); filefingerprint.cpp is
not part of the excerpt. -/
def fpSerialize (fp : FileFingerprint) : List Nat :=
  w64 (encodeI64 fp.size) ++ w64 (encodeI64 fp.mtime) ++
  w32 (encodeI32 fp.crc0) ++ w32 (encodeI32 fp.crc1) ++
  w32 (encodeI32 fp.crc2) ++ w32 (encodeI32 fp.crc3) ++ [boolByte fp.isvalid]

/-- Modelled from the spec: `FileFingerprint::unserialize` parses the
33-byte prefix written by `fpSerialize` (failing on a shorter input) and
returns the remaining bytes; filefingerprint.cpp is not part of the
excerpt. -/
def fpUnserialize (l : List Nat) : Option (FileFingerprint × List Nat) :=
  match l with
  | s0 :: s1 :: s2 :: s3 :: s4 :: s5 :: s6 :: s7 ::
    t0 :: t1 :: t2 :: t3 :: t4 :: t5 :: t6 :: t7 ::
    a0 :: a1 :: a2 :: a3 :: b0 :: b1 :: b2 :: b3 ::
    e0 :: e1 :: e2 :: e3 :: g0 :: g1 :: g2 :: g3 :: v :: rest =>
      some ({ size := decodeI64 (u64val [s0, s1, s2, s3, s4, s5, s6, s7]),
              mtime := decodeI64 (u64val [t0, t1, t2, t3, t4, t5, t6, t7]),
              crc0 := decodeI32 (u32val [a0, a1, a2, a3]),
              crc1 := decodeI32 (u32val [b0, b1, b2, b3]),
              crc2 := decodeI32 (u32val [e0, e1, e2, e3]),
              crc3 := decodeI32 (u32val [g0, g1, g2, g3]),
              isvalid := byteBool v }, rest)
  | _ => none

/-- `FILENODEKEYLENGTH` (32 bytes); the constant's header is not part of the
excerpt, the value is the standard MEGA file-node key length. -/
def FILENODEKEYLENGTH : Nat := 32

/-- The serialized state of a `File` (file.cpp): fingerprint, strings (as
byte lists; `localname` in its platform encoding, `chatauth` the contents of
a NUL-terminated C string or `none` for a null pointer), the 6-byte node
handle, the file key and the four flags.  `tag`, `transfer` and
`fixNameConflicts` are not serialized. -/
structure File where
  fingerprint : FileFingerprint
  name : List Nat
  localname : List Nat
  targetuser : List Nat
  privauth : List Nat
  pubauth : List Nat
  h : Nat
  filekey : List Nat
  hprivate : Bool
  hforeign : Bool
  syncxfer : Bool
  temporaryfile : Bool
  chatauth : Option (List Nat)
deriving DecidableEq

/-- One length-prefixed string field as `File::serialize` writes it:
`ll = (unsigned short)s.size(); append(&ll, 2); append(s.data(), ll)` - the
length is truncated to 16 bits and only that many bytes are appended. -/
def lenStr (s : List Nat) : List Nat :=
  w16 (s.length % 65536) ++ s.take (s.length % 65536)

/-- The `hasChatAuth` byte: `(chatauth && chatauth[0]) ? 1 : 0`. -/
def hasChatAuthByte (ca : Option (List Nat)) : Nat :=
  match ca with
  | some (_ :: _) => 1
  | _ => 0

/-- The optional chat-auth tail: written only when `hasChatAuth`, as a
16-bit `strlen` plus the bytes. -/
def chatAuthTail (ca : Option (List Nat)) : List Nat :=
  match ca with
  | some (c :: cs) => lenStr (c :: cs)
  | _ => []

/-- `File::serialize` (file.cpp 69-132): the transfer-type byte, the
fingerprint, five length-prefixed strings, the 8-byte handle, the file key,
four flag bytes, the `hasChatAuth` byte, eight version zero-bytes, and the
optional chat-auth tail. -/
def serializeFile (transferType : Nat) (f : File) : List Nat :=
  transferType ::
  (fpSerialize f.fingerprint ++
   lenStr f.name ++ lenStr f.localname ++ lenStr f.targetuser ++
   lenStr f.privauth ++ lenStr f.pubauth ++
   w64 f.h ++ f.filekey ++
   [boolByte f.hprivate, boolByte f.hforeign, boolByte f.syncxfer,
    boolByte f.temporaryfile, hasChatAuthByte f.chatauth] ++
   List.replicate 8 0 ++ chatAuthTail f.chatauth)

/-- One length-prefixed string field as `File::unserialize` reads it: read a
16-bit length (the preceding field's bound test guarantees the two bytes),
advance, apply the source's bound test
(`ptr + len + sizeof(unsigned short) > end`), then take the bytes. -/
def readStrChecked (r : List Nat) : Option (List Nat × List Nat) :=
  let len := u16val r
  let r1 := r.drop 2
  if len + 2 > r1.length then none
  else some (r1.take len, r1.drop len)

/-- The tail of `File::unserialize` from the pubauth field onward (file.cpp
209-288): the combined pubauth-to-version bound test, `set6byte` on the
8-byte handle (keeping the low 6 bytes), the key, the flag bytes, the
8-zero-byte version check, and the chat-auth tail (rejecting a zero
`chatauthlen`). -/
def unserializeTail (fp : FileFingerprint)
    (nameV localnameV targetuserV privauthV r8 : List Nat) : Option File :=
  let pubauthlen := u16val r8
  let r9 := r8.drop 2
  if pubauthlen + 8 + FILENODEKEYLENGTH + 3 + 10 > r9.length then none else
  let pubauthV := r9.take pubauthlen
  let rA := r9.drop pubauthlen
  let hV := u64val rA % 2 ^ 48
  let rB := rA.drop 8
  let keyV := rB.take FILENODEKEYLENGTH
  let rC := rB.drop FILENODEKEYLENGTH
  let hprivateV := byteBool (rC.headD 0)
  let rD := rC.drop 1
  let hforeignV := byteBool (rD.headD 0)
  let rE := rD.drop 1
  let syncxferV := byteBool (rE.headD 0)
  let rF := rE.drop 1
  let temporaryfileV := byteBool (rF.headD 0)
  let rG := rF.drop 1
  let hasCA := rG.headD 0
  let rH := rG.drop 1
  if rH.take 8 ≠ List.replicate 8 0 then none else
  let rI := rH.drop 8
  if hasCA ≠ 0 then
    if 2 ≤ rI.length then
      let chatauthlen := u16val rI
      let rJ := rI.drop 2
      if chatauthlen = 0 ∨ chatauthlen > rJ.length then none
      else some { fingerprint := fp, name := nameV, localname := localnameV,
                  targetuser := targetuserV, privauth := privauthV,
                  pubauth := pubauthV, h := hV, filekey := keyV,
                  hprivate := hprivateV, hforeign := hforeignV,
                  syncxfer := syncxferV, temporaryfile := temporaryfileV,
                  chatauth := some (rJ.take chatauthlen) }
    else none
  else some { fingerprint := fp, name := nameV, localname := localnameV,
              targetuser := targetuserV, privauth := privauthV,
              pubauth := pubauthV, h := hV, filekey := keyV,
              hprivate := hprivateV, hforeign := hforeignV,
              syncxfer := syncxferV, temporaryfile := temporaryfileV,
              chatauth := none }

/-- `File::unserialize` (file.cpp 134-289), transcribed check by check:
drop the type byte, parse the fingerprint, then each length-prefixed string
with the source's exact bound tests (the name field also carries the
source's initial two-byte availability test), handing over to
`unserializeTail` for the fixed-size fields. -/
def unserializeFile (d : List Nat) : Option File :=
  match d with
  | [] => none
  | _ :: d1 =>
    match fpUnserialize d1 with
    | none => none
    | some (fp, r0) =>
      if r0.length < 2 then none else
      match readStrChecked r0 with
      | none => none
      | some (nameV, r2) =>
      match readStrChecked r2 with
      | none => none
      | some (localnameV, r4) =>
      match readStrChecked r4 with
      | none => none
      | some (targetuserV, r6) =>
      match readStrChecked r6 with
      | none => none
      | some (privauthV, r8) => unserializeTail fp nameV localnameV targetuserV privauthV r8

/-- Well-formedness of a `File` as the C++ data model guarantees it: the
fingerprint fields are in their machine ranges, the file key is a
`FILENODEKEYLENGTH`-byte array, the handle is a 6-byte node handle, and the
chat auth (when present) is the content of a NUL-terminated C string, so it
contains no zero byte. -/
def FileWF (f : File) : Prop :=
  f.filekey.length = FILENODEKEYLENGTH ∧ f.h < 2 ^ 48 ∧
  (∀ c ∈ f.chatauth, (0 : Nat) ∉ c) ∧
  -2 ^ 63 ≤ f.fingerprint.size ∧ f.fingerprint.size < 2 ^ 63 ∧
  -2 ^ 63 ≤ f.fingerprint.mtime ∧ f.fingerprint.mtime < 2 ^ 63 ∧
  -2 ^ 31 ≤ f.fingerprint.crc0 ∧ f.fingerprint.crc0 < 2 ^ 31 ∧
  -2 ^ 31 ≤ f.fingerprint.crc1 ∧ f.fingerprint.crc1 < 2 ^ 31 ∧
  -2 ^ 31 ≤ f.fingerprint.crc2 ∧ f.fingerprint.crc2 < 2 ^ 31 ∧
  -2 ^ 31 ≤ f.fingerprint.crc3 ∧ f.fingerprint.crc3 < 2 ^ 31

end Mega

namespace Mega

/-- A debris filesystem in which every rename succeeds immediately. -/
def debrisFsAllOk : DebrisFs :=
  { rename := fun _ => { ok := true, transient := false, targetExists := false },
    mkdirDay := fun _ => { ok := true, targetExists := false },
    mkdirBaseOk := true }

/-- A debris filesystem in which every rename fails because the target
already exists (and the day folder is present). -/
def debrisFsAllTaken : DebrisFs :=
  { rename := fun _ => { ok := false, transient := false, targetExists := true },
    mkdirDay := fun _ => { ok := false, targetExists := true },
    mkdirBaseOk := true }

/-- A quiescent baseline environment for concrete evaluations. -/
def envBase : Env :=
  { fsidEntries := [], thisSyncFsFp := some 1, fullscan := false,
    fsStateCurrent := true, statecurrent := true, fcState := none,
    currentsecs := 1000,
    sourceProbe := { fopenOk := true, size := 0, mtime := 0, retry := false },
    cloudRenameOk := true, cloudRenameTransient := false,
    syncedNodeStillExists := false, debrisFs := debrisFsAllOk,
    mkdirLocalOk := true }

/-- A concrete valid file fingerprint. -/
def fpA : FileFingerprint :=
  { size := 9, mtime := 7, crc0 := 1, crc1 := 2, crc2 := 3, crc3 := 4,
    isvalid := true }

/-- A different valid file fingerprint (same size/mtime, different crc). -/
def fpB : FileFingerprint :=
  { size := 9, mtime := 7, crc0 := 5, crc1 := 6, crc2 := 7, crc3 := 8,
    isvalid := true }

/-- Claim C3 failing input, filesystem side: a file entry whose fsid 42 is
claimed elsewhere, same type, same (size, mtime). -/
def fnC3 : FSNode :=
  { type := .fileNode, fingerprint := fpA, fsid := some 42, size := 9,
    mtime := 7, isSymlink := false, isBlocked := false, shortname := none }

/-- Claim C3 failing input, index side: the LocalNode elsewhere in THIS sync
that claims fsid 42 with matching type, size and mtime. -/
def entryC3 : FsidEntry :=
  { fsid := 42, nodeType := .fileNode, mtime := 7, size := 9,
    sameSync := true, syncFsFingerprint := some 1, nodeId := 0 }

/-- The same claimant placed in ANOTHER sync on the same filesystem
fingerprint. -/
def entryC3other : FsidEntry :=
  { entryC3 with sameSync := false }

/-- Environment whose fsid index holds exactly the same-sync claimant. -/
def envC3 : Env := { envBase with fsidEntries := [entryC3] }

/-- Claim C6 failing input: a symlink filesystem entry on a row with no sync
LocalNode. -/
def fnC6 : FSNode :=
  { type := .fileNode, fingerprint := fpA, fsid := some 5, size := 1,
    mtime := 1, isSymlink := true, isBlocked := false, shortname := none }

/-- Claim C4 environment: the cloud is caught up (`statecurrent`) but
scanning is NOT complete (`fsStateCurrent = false`); the synced cloud node is
gone for good. -/
def envC4 : Env := { envBase with fsStateCurrent := false }

/-- Claim C5 failing input: the first check of a move source that still
exists, whose size differs from the never-checked sentinel. -/
def probeC5 : FileProbe := { fopenOk := true, size := 5, mtime := 50, retry := false }

/-- Claim C7: a scan whose target directory exists but cannot be iterated
(`dopen` fails), with entries that would otherwise be found. -/
def scanEnvUnreadable : ScanEnv :=
  { targetInDebris := false, fopenOk := true, targetType := .folderNode,
    dopenOk := false,
    entries := [{ inDebris := false, fopenOk := true, isSymlink := false,
                  mtime := 7, size := 9, shortname := none,
                  entryType := .fileNode, fsidvalid := true, fsid := 42,
                  fingerprint := fpA, retry := false }] }

/-- Claim C7: a genuinely empty, perfectly readable directory. -/
def scanEnvEmpty : ScanEnv :=
  { targetInDebris := false, fopenOk := true, targetType := .folderNode,
    dopenOk := true, entries := [] }

end Mega

namespace Mega

/-- Witness material: the synced LocalNode of `snRowA` whose stored fsid 11
differs from the observed fsid 10 (and no other LocalNode claims fsid 10). -/
def snRowB : LocalNode :=
  { type := .fileNode, fingerprint := fpA, fsid := some 11,
    syncedCloudNodeHandle := some 77, useBlocked := .resolved,
    scanBlocked := .resolved, blockedTimerArmed := false, slocalname := none,
    transferActive := false }

end Mega

namespace Mega

/-- Claim C10 counterexample input: a File whose chat-auth pointer is a
non-null but EMPTY C string (all string fields fit 16-bit lengths). -/
def fileC10 : File :=
  { fingerprint := fpA, name := [65], localname := [66], targetuser := [],
    privauth := [], pubauth := [67, 68], h := 77,
    filekey := List.replicate 32 9, hprivate := true, hforeign := false,
    syncxfer := true, temporaryfile := false, chatauth := some [] }

/-- Witness input for the amended round trip: as `fileC10` but with a
non-empty chat auth. -/
def fileW : File :=
  { fingerprint := fpA, name := [65], localname := [66], targetuser := [],
    privauth := [], pubauth := [67, 68], h := 77,
    filekey := List.replicate 32 9, hprivate := true, hforeign := false,
    syncxfer := true, temporaryfile := false, chatauth := some [7] }

end Mega

-- ===================== theorems =====================

namespace Mega

/-- Claim C3 (code bug): the spec says an fsid already claimed by a
LocalNode ELSEWHERE IN THIS SYNC, with matching type and matching
(size, mtime) for files, is treated as a local move.  In the source the
`return it->second` of `findLocalNodeByFsid` sits inside the
`it->second->sync != &filesystemSync` block, so a same-sync claimant is
never returned and `checkLocalPathForMovesRenames` falls back to normal
create/delete handling; the identically-attributed claimant in a different
sync on the same filesystem fingerprint IS returned. -/
theorem findLocalNodeByFsid_misses_sameSync :
    findLocalNodeByFsid [entryC3] fnC3 (some 1) = none ∧
    checkLocalPathForMovesRenames envC3 none fnC3 =
      .ok { handled := false, rowResult := false, effects := [],
            fsNodeFsidCleared := false, deletedRowSyncNode := false } ∧
    findLocalNodeByFsid [entryC3other] fnC3 (some 1) = some entryC3other :=
  ⟨rfl, rfl, rfl⟩

/-- Claim C6 (code bug): on a row with a filesystem entry but no sync
LocalNode whose entry is a symlink, `checkLocalPathForMovesRenames`
executes `row.syncNode->setUseBlocked()` with `row.syncNode == nullptr`
(sync.cpp 1695) - a null-pointer dereference instead of the claimed
safe blocking of the row. -/
theorem checkLocalPathForMovesRenames_symlink_nullDeref :
    checkLocalPathForMovesRenames envBase none fnC6 = .error .nullDeref :=
  rfl

/-- Claim C5 (code bug): `checkIfFileIsChanging` returns false on every
input - its waiting paths end in `return NULL` (sync.cpp 2951), which in a
`bool` function is `false` - so `checkLocalPathForMovesRenames` never defers
a move decision; in particular on the first check of an existing file whose
size differs from the sentinel, the function detects a possible update
(keeping its per-path state for the next pass) and still returns false. -/
theorem checkIfFileIsChanging_never_defers :
    (∀ st cs probe, (checkIfFileIsChanging st cs probe).ret = false) ∧
    (checkIfFileIsChanging none 100 probeC5).waitDetected = true ∧
    (checkIfFileIsChanging none 100 probeC5).newState =
      some { updatedfilesize := 5, updatedfilets := 100, updatedfileinitialts := 100 } := by
  refine ⟨?_, by decide, by decide⟩
  intro st cs probe
  unfold checkIfFileIsChanging
  dsimp only
  repeat' split
  all_goals rfl

/-- Claim C4 (code bug): `resolve_cloudNodeGone` consults only
`client->statecurrent` - with the cloud caught up it moves the local item
to local debris even while scanning is incomplete (`fsStateCurrent = false`)
and without any moves-complete condition; `resolve_fsNodeGone` consults only
`fsStateCurrent`.  While their own gates hold, both defer by returning false
with no effects. -/
theorem resolve_gone_ignores_scan_and_move_completion :
    envC4.fsStateCurrent = false ∧
    resolve_cloudNodeGone envC4 =
      .ok { ret := false, effects := [.debrisRenameAttempt (-3), .setfsidUndef] } ∧
    resolve_cloudNodeGone { envC4 with statecurrent := false } =
      .ok { ret := false, effects := [] } ∧
    resolve_fsNodeGone envBase =
      .ok { ret := false, effects := [.setfsidUndef, .movetosyncdebris] } ∧
    resolve_fsNodeGone { envBase with fsStateCurrent := false } =
      .ok { ret := false, effects := [] } :=
  ⟨rfl, rfl, rfl, rfl, rfl⟩

/-- Claim C7 counterexample: a scan request whose target directory cannot be
iterated completes in exactly the same state as one over a genuinely empty
directory - complete, empty results, and no flag of any kind - so callers
cannot distinguish the two, contrary to the claim. -/
theorem scanRequest_unreadable_indistinguishable :
    workerLoopProcess scanEnvUnreadable = workerLoopProcess scanEnvEmpty ∧
    workerLoopProcess scanEnvUnreadable = { complete := true, results := [] } :=
  ⟨rfl, rfl⟩

/-- Claim C7 as amended: for every scan request outside the debris whose
target directory cannot be iterated, the request completes (`mComplete`
true) with an empty result list; the `ScanRequest` carries no
inaccessibility flag, so an unreadable directory is not distinguishable
from an empty one. -/
theorem scanRequest_unreadable_completes_empty (env : ScanEnv)
    (h : env.dopenOk = false) :
    workerLoopProcess env = { complete := true, results := [] } := by
  unfold workerLoopProcess workerScan
  rw [h]
  split_ifs <;> simp_all

/-- Witness for the amended claim C7 at the concrete unreadable-directory
environment. -/
theorem scanRequest_unreadable_completes_empty_witness :
    scanEnvUnreadable.dopenOk = false ∧
    workerLoopProcess scanEnvUnreadable = { complete := true, results := [] } :=
  ⟨rfl, scanRequest_unreadable_completes_empty scanEnvUnreadable rfl⟩

end Mega

namespace Mega

/-- Claim C8: `File::failed` never retries after a crypto key (EKEY) error;
always retries quota-exceeded (EOVERQUOTA / EGOINGOVERQUOTA) regardless of
the failure count; retries generic non-fatal errors while the failure count
is below 16; caps read/write (I/O) errors at 6 failures for ordinary
transfers; and lifts that cap to 8 for sync-initiated transfers
(`syncxfer`). -/
theorem fileFailed_retry_policy :
    (∀ sx fc, fileFailed .EKEY sx fc = false) ∧
    (∀ sx fc, fileFailed .EOVERQUOTA sx fc = true ∧
              fileFailed .EGOINGOVERQUOTA sx fc = true) ∧
    (∀ fc, fileFailed .EFAILED false fc = decide (fc < 16)) ∧
    (∀ fc, fileFailed .EREAD false fc = decide (fc ≤ 6) ∧
           fileFailed .EWRITE false fc = decide (fc ≤ 6)) ∧
    (∀ fc, fileFailed .EREAD true fc = decide (fc ≤ 8) ∧
           fileFailed .EWRITE true fc = decide (fc ≤ 8)) ∧
    (∀ fc, fileFailed .EFAILED true fc = decide (fc < 16)) := by
  refine ⟨fun sx fc => rfl,
          fun sx fc => ⟨by simp [fileFailed], by simp [fileFailed]⟩, ?_, ?_, ?_, ?_⟩
  all_goals intro fc
  all_goals try constructor
  all_goals rw [Bool.eq_iff_iff]
  all_goals simp [fileFailed]
  all_goals omega

end Mega

namespace Mega

/-- Claim C1/C2 row material: a synced LocalNode for a file with fsid 10 and
cloud handle 77. -/
def snRowA : LocalNode :=
  { type := .fileNode, fingerprint := fpA, fsid := some 10,
    syncedCloudNodeHandle := some 77, useBlocked := .resolved,
    scanBlocked := .resolved, blockedTimerArmed := false, slocalname := none,
    transferActive := false }

/-- Cloud node equal to `snRowA` (same type and fingerprint, handle 77). -/
def cnEqualA : CloudNode :=
  { type := .fileNode, nodehandle := 77, fingerprint := fpA,
    localnodeAttached := false, syncgetActive := false }

/-- Filesystem entry equal to `snRowA` (same fingerprint) at the synced
fsid 10. -/
def fnEqualA : FSNode :=
  { type := .fileNode, fingerprint := fpA, fsid := some 10, size := 9,
    mtime := 7, isSymlink := false, isBlocked := false, shortname := none }

/-- A parent cloud folder for the rows. -/
def cnParent : CloudNode :=
  { type := .folderNode, nodehandle := 1000, fingerprint := emptyFingerprint,
    localnodeAttached := false, syncgetActive := false }

/-- Claim C2 failing input: cloud and filesystem both differ from the synced
state (different crc, same size/mtime). -/
def cnDiffB : CloudNode := { cnEqualA with fingerprint := fpB }

/-- Claim C2 failing input, filesystem side. -/
def fnDiffB : FSNode := { fnEqualA with fingerprint := fpB }

/-- Claim C1 counterexample row: cloud and filesystem both EQUAL the synced
state, but the filesystem entry reappeared under a new fsid 42 that is
claimed by a LocalNode of another sync (same filesystem fingerprint, same
type, same size and mtime). -/
def fnEqualMoved : FSNode := { fnEqualA with fsid := some 42 }

/-- Claim C1 counterexample environment: the fsid index holds the cross-sync
claimant of fsid 42. -/
def envC1 : Env := { envBase with fsidEntries := [entryC3other] }

end Mega

namespace Mega

/-- Claim C2 (code bug): on a row where all three entries are present and
both the cloud node and the filesystem entry differ from the synced state,
`syncItem` routes the row to `resolve_userIntervention`, whose body is the
stub `LOG_debug << "write me"; return false;` - no stall of any kind is
recorded (and no mutation is performed); the claimed
`LocalAndRemoteChangedSinceLastSyncedState_userMustChoose` stall does not
exist in this code. -/
theorem syncItem_bothChanged_writeMe_stub :
    syncEqualCloud cnDiffB snRowA = false ∧
    syncEqualFs fnDiffB snRowA = false ∧
    syncItem envBase (some cnDiffB) (some snRowA) (some fnDiffB) (some cnParent) =
      .ok { ret := false, effects := [] } :=
  ⟨rfl, rfl, rfl⟩

/-- Claim C1 counterexample: a row in which the cloud node, the sync node
and the filesystem entry are all present and both comparisons hold
(`syncEqual` true on both sides), yet `syncItem` does NOT declare the row
synced: because the stored fsid differs from the observed one and another
LocalNode claims the observed fsid, the move/overwrite side channel fires
first, deletes the row's LocalNode (queueing cloud-node removal commands)
and returns unresolved - contradicting the claim's "declares the row
synced, commands no ... delete, updates the LocalNode's fsid". -/
theorem syncItem_equalRow_hijackedByMove :
    syncEqualCloud cnEqualA snRowA = true ∧
    syncEqualFs fnEqualMoved snRowA = true ∧
    syncItem envC1 (some cnEqualA) (some snRowA) (some fnEqualMoved) (some cnParent) =
      .ok { ret := false,
            effects := [.setnotseenRow, .deleteSyncNode, .execsyncdeletions,
                        .appSyncLocalMove, .reparentSource, .setnotseenSource,
                        .statecacheadd] } :=
  ⟨rfl, rfl, rfl⟩

end Mega

namespace Mega

/-- If the filesystem-side `syncEqual` holds, the types agree. -/
theorem syncEqualFs_types {fsn : FSNode} {ln : LocalNode}
    (h : syncEqualFs fsn ln = true) : fsn.type = ln.type := by
  unfold syncEqualFs at h
  by_cases ht : fsn.type = ln.type
  · exact ht
  · simp [ht] at h

/-- The slocalname refresh is never a mutation command. -/
theorem slocalnameEffects_noMutation (s : Option LocalNode) (f : Option FSNode) :
    (slocalnameEffects s f).filter Effect.isMutationCommand = [] := by
  unfold slocalnameEffects
  rcases s with _ | sn <;> rcases f with _ | fn <;> try rfl
  rcases hsh : fn.shortname with _ | sh <;> simp [hsh]
  intro _
  rfl

/-- The effect prefix accumulated by the `syncItem` gates is never a
mutation command. -/
theorem gatesNoMutation (s : Option LocalNode) (f : Option FSNode) :
    ((slocalnameEffects s f ++
      if descendantFlagGate s then [Effect.resetBlockedFlags] else []).filter
        Effect.isMutationCommand) = [] := by
  rw [List.filter_append, slocalnameEffects_noMutation]
  split <;> rfl

end Mega


namespace Mega

/-- Claim C1 as amended: for every reconciliation row with cloud node, sync
LocalNode and filesystem entry all present, both equal to the synced state
(`syncEqual` on both sides), the row not blocked, and - the amendment -
no move side channel applying (the observed fsid equals the stored one or is
claimed by no other LocalNode; the observed cloud handle equals the stored
one or the cloud node carries no attached LocalNode), `syncItem` declares
the row synced, commands no upload, download, move or delete, and, whenever
the stored fsid or synced cloud handle differ from the observed ones, sets
them to the observed values and queues the LocalNode for the state cache. -/
theorem syncItem_allEqual_synced
    (env : Env) (cn : CloudNode) (sn : LocalNode) (fn : FSNode) (pc : Option CloudNode)
    (hCloudEq : syncEqualCloud cn sn = true)
    (hFsEq : syncEqualFs fn sn = true)
    (hUse : useBlockedGate (some sn) = false)
    (hScan : scanBlockedGateHit (some sn) = false)
    (hFsOk : fsNodeBlocked (some fn) = false)
    (hNoLocalMove : sn.fsid = fn.fsid ∨
        findLocalNodeByFsid env.fsidEntries fn env.thisSyncFsFp = none)
    (hNoCloudMove : sn.syncedCloudNodeHandle = some cn.nodehandle ∨
        cn.localnodeAttached = false) :
    ∃ out, syncItem env (some cn) (some sn) (some fn) pc = Except.ok out ∧
      out.ret = true ∧
      out.effects.filter Effect.isMutationCommand = [] ∧
      (¬ (sn.fsid = fn.fsid ∧ sn.syncedCloudNodeHandle = some cn.nodehandle) →
        Effect.setSyncedPair fn.fsid cn.nodehandle ∈ out.effects ∧
        Effect.statecacheadd ∈ out.effects) := by
  have htypeF : fn.type = sn.type := syncEqualFs_types hFsEq
  set e1 : List Effect := slocalnameEffects (some sn) (some fn) ++
      (if descendantFlagGate (some sn) then [Effect.resetBlockedFlags] else []) with he1
  have hstep1 : syncItem env (some cn) (some sn) (some fn) pc =
      syncItemMoveStage env (some cn) (some sn) (some fn) pc e1 := by
    unfold syncItem
    simp only [hUse, hScan, hFsOk, Bool.false_eq_true, if_false, he1]
  set acc2 : List Effect := e1 ++
      (if localMoveGuard (some sn) fn then [Effect.setnotseenRow] else []) with hacc2
  have hstep2 : syncItemMoveStage env (some cn) (some sn) (some fn) pc e1 =
      syncItemCloudStage env (some cn) (some sn) (some fn) pc acc2 := by
    unfold syncItemMoveStage
    dsimp only
    by_cases hg : localMoveGuard (some sn) fn = true
    · have hlk : findLocalNodeByFsid env.fsidEntries fn env.thisSyncFsFp = none := by
        rcases hNoLocalMove with h | h
        · exfalso
          simp only [localMoveGuard] at hg
          rw [h] at hg
          simp at hg
        · exact h
      have hcheck : checkLocalPathForMovesRenames env (some sn) fn =
          Except.ok { handled := false, rowResult := false,
                      effects := [Effect.setnotseenRow],
                      fsNodeFsidCleared := false, deletedRowSyncNode := false } := by
        unfold checkLocalPathForMovesRenames
        dsimp only
        rw [if_pos htypeF.symm]
        by_cases hft : sn.type = NodeType.fileNode
        · rw [if_pos hft, hlk]
        · rw [if_neg hft]
      rw [if_pos hg, hcheck]
      dsimp only
      simp [hacc2, hg]
    · have hg2 : localMoveGuard (some sn) fn = false := by
        revert hg
        cases localMoveGuard (some sn) fn <;> simp
      simp only [hg2, Bool.false_eq_true, if_false, hacc2, List.append_nil]
  have hstep3 : syncItemCloudStage env (some cn) (some sn) (some fn) pc acc2 =
      mapPrefixed acc2 (syncItemCases env (some cn) (some sn) (some fn) pc) := by
    unfold syncItemCloudStage
    dsimp only
    by_cases hcg : cloudMoveGuard (some sn) cn = true
    · have hatt : cn.localnodeAttached = false := by
        rcases hNoCloudMove with h | h
        · exfalso
          simp only [cloudMoveGuard] at hcg
          rw [h] at hcg
          simp at hcg
        · exact h
      have hcc : checkCloudPathForMovesRenames env (some sn) cn = Except.ok [] := by
        unfold checkCloudPathForMovesRenames
        rw [hatt]
        simp
      rw [if_pos hcg, hcc]
      dsimp only
      rw [List.append_nil]
    · have hcg2 : cloudMoveGuard (some sn) cn = false := by
        revert hcg
        cases cloudMoveGuard (some sn) cn <;> simp
      simp only [hcg2, Bool.false_eq_true, if_false]
  by_cases hupd : sn.fsid = fn.fsid ∧ sn.syncedCloudNodeHandle = some cn.nodehandle
  · have hcases : syncItemCases env (some cn) (some sn) (some fn) pc =
        Except.ok { ret := true, effects := [] } := by
      unfold syncItemCases
      dsimp only
      rw [if_pos ⟨hCloudEq, hFsEq⟩]
      rw [if_neg]
      push_neg
      exact ⟨hupd.1, hupd.2⟩
    refine ⟨{ ret := true, effects := acc2 ++ [] }, ?_, rfl, ?_, ?_⟩
    · rw [hstep1, hstep2, hstep3, hcases]
      rfl
    · rw [List.filter_append, List.filter_append, gatesNoMutation]
      split <;> rfl
    · intro hne
      exact absurd hupd hne
  · have hcases : syncItemCases env (some cn) (some sn) (some fn) pc =
        Except.ok { ret := true,
                    effects := [Effect.setSyncedPair fn.fsid cn.nodehandle,
                                Effect.statecacheadd] } := by
      unfold syncItemCases
      dsimp only
      rw [if_pos ⟨hCloudEq, hFsEq⟩]
      rw [if_pos]
      rcases not_and_or.mp hupd with h | h
      · exact Or.inl h
      · exact Or.inr h
    refine ⟨{ ret := true,
              effects := acc2 ++ [Effect.setSyncedPair fn.fsid cn.nodehandle,
                                  Effect.statecacheadd] }, ?_, rfl, ?_, ?_⟩
    · rw [hstep1, hstep2, hstep3, hcases]
      rfl
    · rw [List.filter_append, List.filter_append, gatesNoMutation]
      split <;> rfl
    · intro _
      constructor
      · exact List.mem_append_right _ (by simp)
      · exact List.mem_append_right _ (by simp)

end Mega

namespace Mega

/-- Witness for the amended claim C1 at a concrete row whose stored fsid
differs from the observed one: the row is declared synced with the
fsid/handle update queued for the state cache. -/
theorem syncItem_allEqual_synced_witness :
    syncEqualCloud cnEqualA snRowB = true ∧
    syncEqualFs fnEqualA snRowB = true ∧
    useBlockedGate (some snRowB) = false ∧
    scanBlockedGateHit (some snRowB) = false ∧
    fsNodeBlocked (some fnEqualA) = false ∧
    findLocalNodeByFsid envBase.fsidEntries fnEqualA envBase.thisSyncFsFp = none ∧
    snRowB.syncedCloudNodeHandle = some cnEqualA.nodehandle ∧
    (∃ out, syncItem envBase (some cnEqualA) (some snRowB) (some fnEqualA)
        (some cnParent) = Except.ok out ∧
      out.ret = true ∧
      out.effects.filter Effect.isMutationCommand = [] ∧
      (¬ (snRowB.fsid = fnEqualA.fsid ∧
          snRowB.syncedCloudNodeHandle = some cnEqualA.nodehandle) →
        Effect.setSyncedPair fnEqualA.fsid cnEqualA.nodehandle ∈ out.effects ∧
        Effect.statecacheadd ∈ out.effects)) :=
  ⟨rfl, rfl, rfl, rfl, rfl, rfl, rfl,
   syncItem_allEqual_synced envBase cnEqualA snRowB fnEqualA (some cnParent)
     rfl rfl rfl rfl rfl (Or.inr rfl) (Or.inl rfl)⟩

end Mega

namespace Mega

/-- When every rename into the debris fails with `target_exists` (and no
transient error), the loop tries every index from `i` for `fuel` iterations
and gives up. -/
theorem movetolocaldebrisGo_allTaken (fs : DebrisFs)
    (hfail : ∀ i, fs.rename i =
      { ok := false, transient := false, targetExists := true }) :
    ∀ fuel : Nat, ∀ i : Int, movetolocaldebrisGo fs i fuel =
      (false, (List.range fuel).map (fun k : Nat => i + (k : Int))) := by
  intro fuel
  induction fuel with
  | zero => intro i; rfl
  | succ n ih =>
    intro i
    unfold movetolocaldebrisGo
    rw [hfail i]
    simp only [Bool.false_eq_true, if_false, not_true, and_false]
    rw [ih (i + 1)]
    simp only [List.range_succ_eq_map, List.map_cons, List.map_map, Prod.mk.injEq,
               List.cons.injEq, true_and]
    refine ⟨by simp, ?_⟩
    apply List.map_congr_left
    intro k _
    simp only [Function.comp_apply]
    push_cast
    ring

end Mega

namespace Mega

/-- Claim C9: `movetolocaldebris` only ever renames the victim into the
debris day folder (its oracle has no delete operation).  When the plain
day-folder target and every suffixed target already exist, it attempts the
plain name (indexes -3..-1) and then the numeric suffixes 0 through 99, and
then gives up reporting failure; a successful rename at the first (plain
day-name) attempt reports success immediately.  `resolve_cloudNodeGone`,
the reconciler's local-deletion path, performs exactly this debris move
(plus clearing the stored fsid on success) and nothing else. -/
theorem movetolocaldebris_dayfolder_policy :
    (∀ fs : DebrisFs,
      (∀ i, fs.rename i = { ok := false, transient := false, targetExists := true }) →
      movetolocaldebris fs =
        (false, (List.range 103).map (fun k : Nat => (-3 : Int) + (k : Int))) ∧
      ((List.range 103).map (fun k : Nat => (-3 : Int) + (k : Int))).filter
          (fun i => decide (0 ≤ i)) =
        (List.range 100).map (fun k : Nat => (k : Int))) ∧
    (∀ fs : DebrisFs,
      fs.rename (-3) = { ok := true, transient := false, targetExists := false } →
      movetolocaldebris fs = (true, [-3])) ∧
    (∀ env : Env, env.statecurrent = true → env.syncedNodeStillExists = false →
      resolve_cloudNodeGone env =
        Except.ok ({ ret := false,
                     effects :=
                       (movetolocaldebris env.debrisFs).2.map Effect.debrisRenameAttempt ++
                         (if (movetolocaldebris env.debrisFs).1
                          then [Effect.setfsidUndef] else []) } : StepOutcome)) := by
  refine ⟨?_, ?_, ?_⟩
  · intro fs hfail
    refine ⟨movetolocaldebrisGo_allTaken fs hfail 103 (-3), by decide⟩
  · intro fs hok
    show movetolocaldebrisGo fs (-3) 103 = (true, [-3])
    unfold movetolocaldebrisGo
    rw [hok]
    rfl
  · intro env h1 h2
    unfold resolve_cloudNodeGone
    rw [h1, h2]
    rfl

end Mega

namespace Mega

/-- Witness for claim C9 at concrete debris filesystems: all targets taken
(103 attempts then failure), first attempt succeeding, and the
`resolve_cloudNodeGone` deletion path on the baseline environment. -/
theorem movetolocaldebris_dayfolder_policy_witness :
    movetolocaldebris debrisFsAllTaken =
      (false, (List.range 103).map (fun k : Nat => (-3 : Int) + (k : Int))) ∧
    movetolocaldebris debrisFsAllOk = (true, [-3]) ∧
    resolve_cloudNodeGone envBase =
      Except.ok ({ ret := false,
                   effects :=
                     (movetolocaldebris envBase.debrisFs).2.map
                         Effect.debrisRenameAttempt ++
                       (if (movetolocaldebris envBase.debrisFs).1
                        then [Effect.setfsidUndef] else []) } : StepOutcome) :=
  ⟨(movetolocaldebris_dayfolder_policy.1 debrisFsAllTaken (fun _ => rfl)).1,
   movetolocaldebris_dayfolder_policy.2.1 debrisFsAllOk rfl,
   movetolocaldebris_dayfolder_policy.2.2 envBase rfl rfl⟩

end Mega

namespace Mega

/-- Reading back a 16-bit length prefix. -/
theorem u16_w16 (n : Nat) (X : List Nat) (h : n < 65536) :
    u16val (w16 n ++ X) = n := by
  simp only [w16, List.cons_append, List.nil_append, u16val]
  omega

/-- Reading back a 64-bit little-endian value. -/
theorem u64_w64 (m : Nat) (X : List Nat) (hm : m < 2 ^ 64) :
    u64val (w64 m ++ X) = m := by
  simp only [w64, List.cons_append, List.nil_append, u64val]
  omega

/-- Reading back a 32-bit little-endian value. -/
theorem u32_w32 (m : Nat) (X : List Nat) (hm : m < 2 ^ 32) :
    u32val (w32 m ++ X) = m := by
  simp only [w32, List.cons_append, List.nil_append, u32val]
  omega

/-- Two's-complement round trip for 64-bit signed values. -/
theorem decodeI64_encodeI64 (i : Int) (h1 : -2 ^ 63 ≤ i) (h2 : i < 2 ^ 63) :
    decodeI64 (encodeI64 i) = i := by
  unfold decodeI64 encodeI64
  rw [show ((2 : Int) ^ 64) = 18446744073709551616 from by norm_num] at *
  rw [show ((2 : Int) ^ 63) = 9223372036854775808 from by norm_num] at *
  rw [show ((2 : Nat) ^ 63) = 9223372036854775808 from by norm_num]
  split_ifs <;> omega

/-- Two's-complement round trip for 32-bit signed values. -/
theorem decodeI32_encodeI32 (i : Int) (h1 : -2 ^ 31 ≤ i) (h2 : i < 2 ^ 31) :
    decodeI32 (encodeI32 i) = i := by
  unfold decodeI32 encodeI32
  rw [show ((2 : Int) ^ 32) = 4294967296 from by norm_num] at *
  rw [show ((2 : Int) ^ 31) = 2147483648 from by norm_num] at *
  rw [show ((2 : Nat) ^ 31) = 2147483648 from by norm_num]
  split_ifs <;> omega

/-- `encodeI64` lands in the unsigned 64-bit range. -/
theorem encodeI64_lt (i : Int) : encodeI64 i < 2 ^ 64 := by
  unfold encodeI64
  rw [show ((2 : Int) ^ 64) = 18446744073709551616 from by norm_num]
  rw [show ((2 : Nat) ^ 64) = 18446744073709551616 from by norm_num]
  omega

/-- `encodeI32` lands in the unsigned 32-bit range. -/
theorem encodeI32_lt (i : Int) : encodeI32 i < 2 ^ 32 := by
  unfold encodeI32
  rw [show ((2 : Int) ^ 32) = 4294967296 from by norm_num]
  rw [show ((2 : Nat) ^ 32) = 4294967296 from by norm_num]
  omega

/-- A serialized C++ bool reads back as itself. -/
theorem byteBool_boolByte (b : Bool) : byteBool (boolByte b) = b := by
  cases b <;> decide

end Mega

namespace Mega

/-- The fingerprint serialization round trip: parsing the serialized prefix
recovers the fingerprint and the remaining bytes. -/
theorem fpUnserialize_fpSerialize (fp : FileFingerprint) (rest : List Nat)
    (hs1 : -2 ^ 63 ≤ fp.size) (hs2 : fp.size < 2 ^ 63)
    (hm1 : -2 ^ 63 ≤ fp.mtime) (hm2 : fp.mtime < 2 ^ 63)
    (hc01 : -2 ^ 31 ≤ fp.crc0) (hc02 : fp.crc0 < 2 ^ 31)
    (hc11 : -2 ^ 31 ≤ fp.crc1) (hc12 : fp.crc1 < 2 ^ 31)
    (hc21 : -2 ^ 31 ≤ fp.crc2) (hc22 : fp.crc2 < 2 ^ 31)
    (hc31 : -2 ^ 31 ≤ fp.crc3) (hc32 : fp.crc3 < 2 ^ 31) :
    fpUnserialize (fpSerialize fp ++ rest) = some (fp, rest) := by
  obtain ⟨s, m, c0, c1, c2, c3, v⟩ := fp
  dsimp only at *
  simp only [fpSerialize, w64, w32, List.cons_append, List.nil_append,
             fpUnserialize, u64val, u32val, Option.some.injEq, Prod.mk.injEq,
             FileFingerprint.mk.injEq]
  refine ⟨⟨?_, ?_, ?_, ?_, ?_, ?_, ?_⟩, trivial⟩
  · unfold decodeI64 encodeI64
    split_ifs <;> omega
  · unfold decodeI64 encodeI64
    split_ifs <;> omega
  · unfold decodeI32 encodeI32
    split_ifs <;> omega
  · unfold decodeI32 encodeI32
    split_ifs <;> omega
  · unfold decodeI32 encodeI32
    split_ifs <;> omega
  · unfold decodeI32 encodeI32
    split_ifs <;> omega
  · exact byteBool_boolByte v

end Mega

namespace Mega

/-- Parsing one length-prefixed string field written by `lenStr` (when the
string fits 16 bits and at least the next length prefix follows). -/
theorem readStrChecked_spec (s X : List Nat) (hs : s.length ≤ 65535)
    (hX : 2 ≤ X.length) :
    readStrChecked (w16 s.length ++ (s ++ X)) = some (s, X) := by
  unfold readStrChecked
  have h1 : u16val (w16 s.length ++ (s ++ X)) = s.length := u16_w16 _ _ (by omega)
  have h2 : (w16 s.length ++ (s ++ X)).drop 2 = s ++ X := rfl
  simp only [h1, h2]
  rw [if_neg (by simp only [List.length_append]; omega)]
  rw [List.take_left, List.drop_left]

/-- `lenStr` writes the plain length prefix when the string fits 16 bits. -/
theorem lenStr_eq (s : List Nat) (hs : s.length ≤ 65535) :
    lenStr s = w16 s.length ++ s := by
  unfold lenStr
  rw [Nat.mod_eq_of_lt (by omega), List.take_length]

end Mega

namespace Mega

/-- Parsing the fixed-size tail written by `serializeFile` recovers the
pubauth string, handle, key, flags and chat auth. -/
theorem unserializeTail_spec (fp : FileFingerprint)
    (nm ln tu pa pb : List Nat) (hh : Nat) (fk : List Nat)
    (b1 b2 b3 b4 : Bool) (ca : Option (List Nat))
    (hpb : pb.length ≤ 65535) (hhlt : hh < 2 ^ 48)
    (hfk : fk.length = FILENODEKEYLENGTH)
    (hca : ∀ c ∈ ca, c.length ≤ 65535) (hcaNE : ca ≠ some []) :
    unserializeTail fp nm ln tu pa
      (w16 pb.length ++ (pb ++ (w64 hh ++ (fk ++
        ([boolByte b1, boolByte b2, boolByte b3, boolByte b4,
          hasChatAuthByte ca] ++
          (List.replicate 8 0 ++ chatAuthTail ca)))))) =
      some { fingerprint := fp, name := nm, localname := ln, targetuser := tu,
             privauth := pa, pubauth := pb, h := hh, filekey := fk,
             hprivate := b1, hforeign := b2, syncxfer := b3,
             temporaryfile := b4, chatauth := ca } := by
  have hbb : ∀ b : Bool, byteBool (boolByte b) = b := fun b => by cases b <;> decide
  have hu16 : ∀ X : List Nat, u16val (w16 pb.length ++ X) = pb.length :=
    fun X => u16_w16 _ _ (by omega)
  have hd2 : ∀ X : List Nat, (w16 pb.length ++ X).drop 2 = X := fun _ => rfl
  have hd8 : ∀ X : List Nat, (w64 hh ++ X).drop 8 = X := fun _ => rfl
  have hu64 : ∀ X : List Nat, u64val (w64 hh ++ X) = hh :=
    fun X => u64_w64 _ _ (by omega)
  unfold unserializeTail
  simp only [List.cons_append, List.nil_append]
  simp only [hu16, hd2, List.drop_left, List.take_left, hd8, hu64,
             List.take_left' hfk, List.drop_left' hfk,
             List.drop_succ_cons, List.drop_zero, List.headD_cons, hbb,
             List.take_left' (List.length_replicate 8 0),
             List.drop_left' (List.length_replicate 8 0),
             Nat.mod_eq_of_lt hhlt]
  rw [if_neg (by
        simp only [List.length_append, List.length_cons, List.length_replicate,
                   w64, FILENODEKEYLENGTH, hfk]
        omega)]
  rw [if_neg (fun hne => hne rfl)]
  rcases ca with _ | ⟨_ | ⟨c0, cs⟩⟩
  · rw [if_neg (by decide)]
  · exact absurd rfl hcaNE
  · have hl : (c0 :: cs).length ≤ 65535 := hca _ rfl
    simp only [hasChatAuthByte, chatAuthTail, lenStr_eq _ hl]
    rw [if_pos (by decide)]
    rw [if_pos (by simp [w16])]
    have h16b : u16val (w16 (c0 :: cs).length ++ (c0 :: cs)) = (c0 :: cs).length :=
      u16_w16 _ _ (by omega)
    have hd2b : (w16 (c0 :: cs).length ++ (c0 :: cs)).drop 2 = c0 :: cs := rfl
    rw [h16b, hd2b]
    rw [if_neg (by simp)]
    rw [List.take_length]

end Mega

namespace Mega

/-- Claim C10 as amended: for every File whose string fields fit in 16-bit
lengths, whose chat auth - the amendment - is absent or non-empty, and which
is well formed (6-byte handle, 32-byte key, fingerprint fields in machine
range, chat auth a NUL-free C string), unserializing the output of
File::serialize reconstructs the same File: fingerprint, name, localname,
targetuser, the auth strings, node handle, file key, the four flags and the
chat auth. -/
theorem unserializeFile_serializeFile (t : Nat) (f : File)
    (hname : f.name.length ≤ 65535) (hlocalname : f.localname.length ≤ 65535)
    (htargetuser : f.targetuser.length ≤ 65535)
    (hprivauth : f.privauth.length ≤ 65535)
    (hpubauth : f.pubauth.length ≤ 65535)
    (hca : ∀ c ∈ f.chatauth, c.length ≤ 65535)
    (hcaNE : f.chatauth ≠ some [])
    (hWF : FileWF f) :
    unserializeFile (serializeFile t f) = some f := by
  unfold FileWF at hWF
  obtain ⟨fp, nm, ln, tu, pa, pb, hh, fk, b1, b2, b3, b4, ca⟩ := f
  dsimp only at hname hlocalname htargetuser hprivauth hpubauth hca hcaNE hWF
  obtain ⟨hfk, hhlt, hcaNZ, hs1, hs2, hm1, hm2, hc01, hc02, hc11, hc12,
          hc21, hc22, hc31, hc32⟩ := hWF
  simp only [serializeFile, lenStr_eq _ hname, lenStr_eq _ hlocalname,
             lenStr_eq _ htargetuser, lenStr_eq _ hprivauth, lenStr_eq _ hpubauth,
             List.append_assoc]
  simp only [unserializeFile]
  rw [fpUnserialize_fpSerialize fp _ hs1 hs2 hm1 hm2 hc01 hc02 hc11 hc12
        hc21 hc22 hc31 hc32]
  dsimp only
  rw [if_neg (by simp only [List.length_append, w16, List.length_cons]; omega)]
  rw [readStrChecked_spec nm _ hname
        (by simp only [List.length_append, w16, List.length_cons]; omega)]
  dsimp only
  rw [readStrChecked_spec ln _ hlocalname
        (by simp only [List.length_append, w16, List.length_cons]; omega)]
  dsimp only
  rw [readStrChecked_spec tu _ htargetuser
        (by simp only [List.length_append, w16, List.length_cons]; omega)]
  dsimp only
  rw [readStrChecked_spec pa _ hprivauth
        (by simp only [List.length_append, w16, List.length_cons]; omega)]
  dsimp only
  exact unserializeTail_spec fp nm ln tu pa pb hh fk b1 b2 b3 b4 ca
    hpubauth hhlt hfk hca hcaNE

end Mega

namespace Mega

/-- Claim C10 counterexample: a File whose chat-auth field is present but
empty round-trips to a File whose chat-auth is absent (the `hasChatAuth`
byte is `chatauth && chatauth[0]`), so the reconstructed File does not carry
the same chat-auth string. -/
theorem serializeFile_emptyChatAuth_noRoundtrip :
    unserializeFile (serializeFile 0 fileC10) =
      some { fileC10 with chatauth := none } ∧
    ({ fileC10 with chatauth := none } : File).chatauth ≠ fileC10.chatauth := by
  constructor
  · decide
  · decide

/-- The witness File satisfies the well-formedness data-model predicate. -/
theorem fileW_WF : FileWF fileW := by
  unfold FileWF
  refine ⟨by decide, by decide, ?_, by decide, by decide, by decide, by decide,
          by decide, by decide, by decide, by decide, by decide, by decide,
          by decide, by decide⟩
  intro c hc
  have hc' : [7] = c := by simpa [fileW, Option.mem_def] using hc
  subst hc'
  decide

/-- The witness File's chat auth bound, needed by the round-trip theorem. -/
theorem fileW_ca_short : ∀ c ∈ fileW.chatauth, c.length ≤ 65535 := by
  intro c hc
  have hc' : [7] = c := by simpa [fileW, Option.mem_def] using hc
  subst hc'
  decide

/-- Witness for the amended claim C10 at a concrete well-formed File with a
non-empty chat auth. -/
theorem unserializeFile_serializeFile_witness :
    fileW.name.length ≤ 65535 ∧ fileW.chatauth ≠ some [] ∧
    unserializeFile (serializeFile 0 fileW) = some fileW :=
  ⟨by decide, by decide,
   unserializeFile_serializeFile 0 fileW (by decide) (by decide) (by decide)
     (by decide) (by decide) fileW_ca_short (by decide) fileW_WF⟩

end Mega
